import Mathlib

/-!
Verification of the proxy-detection core of `omaha/net/detector.h`.

The repository ships the interface header `src/omaha/net/detector.h`,
which declares the detector class hierarchy, the inline `source()` tags,
the `FirefoxProxyDetector::ProxyType` enumeration and the cached-state
members.  The method bodies (`Detect`, `ParsePrefsFile`, `ParsePrefsLine`,
`BuildProxyString`) live in `detector.cc`, which is not part of the
sources at hand; those algorithms are modelled from the specification,
each such definition carrying a doc comment starting with
`Modelled from the spec:`.  Everything that the header itself decides
(tags, enum values, which methods each subclass overrides, which classes
carry state) is embedded directly from the header.
-/

namespace Omaha

/-- Modelled from the spec: the normalized output record `ProxyConfig`
(declared but not defined in the header; the definition lives outside the
given sources).  Fields per the spec's data model: auto-detect flag,
optional auto-config URL, optional per-scheme `host:port` strings, and an
optional bypass list. -/
structure ProxyConfig where
  auto_detect : Bool := false
  auto_config_url : Option String := none
  proxy_for_http : Option String := none
  proxy_for_https : Option String := none
  bypass_list : Option String := none
deriving Repr, DecidableEq

/-- Modelled from the spec: the result of one `Detect` call.  The header's
`Detect` returns an `HRESULT`: success carries a `ProxyConfig` through the
out-parameter, failure is the distinguished "not found" absence, and the
browser-integration family can also fail with the distinguished
"no interactive-user context" precondition violation, which the spec keeps
distinct from plain absence. -/
inductive DetectResult where
  | found (cfg : ProxyConfig)
  | notFound
  | noUserContext
deriving Repr, DecidableEq

/-- Modelled from the spec: the four policy-store accessor results.
`IsManaged` returns a `bool`; the three getters each independently return
a value or a distinguished failure (`none`). -/
structure PolicyAccessors where
  isManaged : Bool
  proxyMode : Option String
  proxyPacUrl : Option String
  proxyServer : Option String
deriving Repr, DecidableEq

/-- Whitespace recognized when trimming a preferences line or value. -/
def isSpaceChar (c : Char) : Bool :=
  c = ' ' || c = '\t' || c = '\r' || c = '\n'

/-- Trimming of leading and trailing whitespace on a character list. -/
def trimChars (l : List Char) : List Char :=
  ((l.dropWhile isSpaceChar).reverse.dropWhile isSpaceChar).reverse

/-- Splitting a character list on a separator character; `n` separators
yield `n + 1` (possibly empty) chunks. -/
def splitOnChar (c : Char) : List Char → List (List Char)
  | [] => [[]]
  | x :: xs =>
      let r := splitOnChar c xs
      if x = c then [] :: r
      else
        match r with
        | [] => [[x]]
        | y :: ys => (x :: y) :: ys

/-- Rejoining of chunks with the separator character between them. -/
def joinWithChar (c : Char) : List (List Char) → List Char
  | [] => []
  | [x] => x
  | x :: xs => x ++ c :: joinWithChar c xs

/-- Modelled from the spec: parsing of the `fixed_servers` server string
into per-scheme `host:port` pairs.  The string is a `;`-separated list of
`scheme=host:port` segments; malformed (truncated) segments are locally
absorbed and skipped, per the spec's malformed-input rule. -/
def parseFixedServers (server : String) : ProxyConfig :=
  (splitOnChar ';' server.data).foldl
    (fun cfg seg =>
      match splitOnChar '=' seg with
      | [scheme, hostport] =>
          if scheme = "http".data then
            { cfg with proxy_for_http := some (String.mk hostport) }
          else if scheme = "https".data then
            { cfg with proxy_for_https := some (String.mk hostport) }
          else cfg
      | _ => cfg)
    {}

/-- Modelled from the spec: the shared `Detect` decision algorithm of
`GroupPolicyProxyDetector` (body in `detector.cc`).  If not managed,
short-circuit to "not found".  Otherwise branch on the mode string from
the closed set {"direct", "auto_detect", "pac_script", "fixed_servers",
"system"}; unrecognized or absent modes yield "not found"; `pac_script`
requires a non-empty PAC URL; `fixed_servers` requires a non-empty server
string parsed into per-scheme `host:port` pairs. -/
def groupPolicyDetectBody (a : PolicyAccessors) : DetectResult :=
  if !a.isManaged then .notFound
  else
    match a.proxyMode with
    | none => .notFound
    | some mode =>
        if mode = "direct" then .found {}
        else if mode = "auto_detect" then .found { auto_detect := true }
        else if mode = "pac_script" then
          match a.proxyPacUrl with
          | none => .notFound
          | some url => if url = "" then .notFound
                        else .found { auto_config_url := some url }
        else if mode = "fixed_servers" then
          match a.proxyServer with
          | none => .notFound
          | some server => if server = "" then .notFound
                           else .found (parseFixedServers server)
        else if mode = "system" then .found {}
        else .notFound

/-- From the header: `GroupPolicyProxyDetector::Detect` runs the shared
decision body over its own virtual accessors. -/
def GroupPolicyProxyDetector.Detect (a : PolicyAccessors) : DetectResult :=
  groupPolicyDetectBody a

/-- From the header: `DMProxyDetector` overrides only the four data
accessors and `source()`; it does not override `Detect`, so by C++ virtual
dispatch a `Detect` call on it runs `GroupPolicyProxyDetector::Detect`'s
body over the device-management accessors. -/
def DMProxyDetector.Detect (a : PolicyAccessors) : DetectResult :=
  groupPolicyDetectBody a

/-- The closed set of recognized policy proxy-mode strings. -/
def recognizedPolicyModes : List String :=
  ["direct", "auto_detect", "pac_script", "fixed_servers", "system"]

/-- Modelled from the spec: the six fields that `ParsePrefsLine`
accumulates through its six out-parameters (proxy type, PAC URL, HTTP
host, HTTP port, SSL host, SSL port). -/
structure PrefsAccum where
  proxy_type : Option String := none
  config_url : Option String := none
  http_host : Option String := none
  http_port : Option String := none
  ssl_host : Option String := none
  ssl_port : Option String := none
deriving Repr, DecidableEq

/-- Modelled from the spec: value normalization for one preferences line.
Recognized values are integers or quoted strings, written `value;`:
surrounding whitespace, the trailing semicolon, and surrounding quotes
are stripped. -/
def parsePrefsValueChars (raw : List Char) : List Char :=
  let v := trimChars raw
  let v := if v.getLast? = some ';' then trimChars v.dropLast else v
  match v with
  | '\"' :: rest =>
      if rest ≠ [] && rest.getLast? = some '\"' then rest.dropLast else v
  | _ => v

/-- Modelled from the spec: splitting one raw preferences line into its
`key.path.segments: value;` shape.  Blank lines and comment lines yield
no key/value pair at all; the value may itself contain colons (PAC
URLs). -/
def prefsLineKeyValue (line : String) : Option (String × String) :=
  match trimChars line.data with
  | [] => none
  | '#' :: _ => none
  | '/' :: '/' :: _ => none
  | t =>
      match splitOnChar ':' t with
      | [] => none
      | [_] => none
      | key :: rest =>
          some (String.mk (trimChars key),
                String.mk (parsePrefsValueChars (joinWithChar ':' rest)))

/-- The six preference keys that are meaningful to the detector. -/
def prefsKeys : List String :=
  ["network.proxy.type", "network.proxy.autoconfig_url",
   "network.proxy.http", "network.proxy.http_port",
   "network.proxy.ssl", "network.proxy.ssl_port"]

/-- Modelled from the spec: `FirefoxProxyDetector::ParsePrefsLine` (body
in `detector.cc`).  Given one raw line, it extracts at most one of the
six recognized fields; comment lines, blank lines and unknown keys are
no-ops, and a later occurrence of a key overwrites the earlier value. -/
def ParsePrefsLine (acc : PrefsAccum) (line : String) : PrefsAccum :=
  match prefsLineKeyValue line with
  | none => acc
  | some (key, value) =>
      if key = "network.proxy.type" then { acc with proxy_type := some value }
      else if key = "network.proxy.autoconfig_url" then { acc with config_url := some value }
      else if key = "network.proxy.http" then { acc with http_host := some value }
      else if key = "network.proxy.http_port" then { acc with http_port := some value }
      else if key = "network.proxy.ssl" then { acc with ssl_host := some value }
      else if key = "network.proxy.ssl_port" then { acc with ssl_port := some value }
      else acc

/-- Accumulation of the six fields over all lines of a preferences file,
each line processed independently, in order. -/
def parsePrefsAccum (lines : List String) : PrefsAccum :=
  lines.foldl ParsePrefsLine {}

/-- Modelled from the spec: `FirefoxProxyDetector::BuildProxyString`
(body in `detector.cc`).  Combines HTTP host/port and SSL host/port into
per-scheme `host:port` strings; absent SSL fields fall back to the HTTP
values; fails (returns `none`) only when the HTTP host/port pair itself
is incomplete. -/
def BuildProxyString (http_host http_port ssl_host ssl_port : String) :
    Option (String × String) :=
  if http_host = "" || http_port = "" then none
  else
    let httpProxy := http_host ++ ":" ++ http_port
    let sslProxy :=
      if ssl_host = "" || ssl_port = "" then httpProxy
      else ssl_host ++ ":" ++ ssl_port
    some (httpProxy, sslProxy)

/-- From the header: `FirefoxProxyDetector::ProxyType` value 0. -/
def PROXY_TYPE_NO_PROXY : Int := 0

/-- From the header: `FirefoxProxyDetector::ProxyType` value 1. -/
def PROXY_TYPE_NAMED_PROXY : Int := 1

/-- From the header: `FirefoxProxyDetector::ProxyType` value 2. -/
def PROXY_TYPE_AUTO_CONFIG_URL : Int := 2

/-- From the header: `FirefoxProxyDetector::ProxyType` value 4. -/
def PROXY_TYPE_AUTO_DETECT : Int := 4

/-- Modelled from the spec: mode resolution over the parsed proxy-type
integer.  0 = no proxy ("not found"); 1 = named proxy, succeeding only
when `BuildProxyString` succeeds; 2 = auto-config URL, requiring a
non-empty PAC URL; 4 = auto-detect; anything else is "not found". -/
def resolveMode (ptype : Int) (p : PrefsAccum) : DetectResult :=
  if ptype = PROXY_TYPE_NO_PROXY then .notFound
  else if ptype = PROXY_TYPE_NAMED_PROXY then
    match BuildProxyString (p.http_host.getD "") (p.http_port.getD "")
        (p.ssl_host.getD "") (p.ssl_port.getD "") with
    | none => .notFound
    | some (forHttp, forHttps) =>
        .found { proxy_for_http := some forHttp, proxy_for_https := some forHttps }
  else if ptype = PROXY_TYPE_AUTO_CONFIG_URL then
    match p.config_url with
    | none => .notFound
    | some url => if url = "" then .notFound
                  else .found { auto_config_url := some url }
  else if ptype = PROXY_TYPE_AUTO_DETECT then .found { auto_detect := true }
  else .notFound

/-- Digits of a decimal numeral read into a natural number; anything that
is not a non-empty all-digit sequence yields `none`. -/
def digitsToNat : List Char → Option Nat
  | [] => none
  | l => l.foldl
      (fun acc c => match acc with
        | none => none
        | some n => if c.isDigit then some (n * 10 + (c.toNat - 48)) else none)
      (some 0)

/-- Decimal integer reading over a character list, with an optional
leading minus sign. -/
def charsToInt (l : List Char) : Option Int :=
  match l with
  | '-' :: rest => (digitsToNat rest).map (fun n => -(n : Int))
  | _ => (digitsToNat l).map (fun n => (n : Int))

/-- The proxy-type integer carried by the accumulated fields: an absent
or unparseable type field counts as 0 (no proxy). -/
def prefsProxyType (p : PrefsAccum) : Int :=
  match p.proxy_type with
  | none => 0
  | some s => (charsToInt s.data).getD 0

/-- Modelled from the spec: `FirefoxProxyDetector::ParsePrefsFile` (body
in `detector.cc`).  An unreadable file (`none`) is "not found", never a
fatal error; otherwise the lines are folded through the line parser and
the accumulated fields are resolved by proxy-type. -/
def ParsePrefsFile (contents : Option (List String)) : DetectResult :=
  match contents with
  | none => .notFound
  | some lines =>
      let p := parsePrefsAccum lines
      resolveMode (prefsProxyType p) p

/-- From the header: the mutable cache members of `FirefoxProxyDetector`
(`cached_prefs_name_`, `cached_prefs_file_path_`,
`cached_prefs_last_modified_`, `cached_config_`). -/
structure FirefoxState where
  cached_prefs_name_ : String := ""
  cached_prefs_file_path_ : String := ""
  cached_prefs_last_modified_ : Int := 0
  cached_config_ : Option ProxyConfig := none
deriving Repr, DecidableEq

/-- Modelled from the spec: the external collaborators a Firefox `Detect`
call consults — profile resolution (which may fail), the preferences
file's current modification time, and the file's lines (`none` when the
file is unreadable). -/
structure FirefoxEnv where
  profile : Option (String × String)
  lastModified : Int
  contents : Option (List String)
deriving Repr, DecidableEq

/-- Modelled from the spec: a cache miss re-parses the file and, on
success, replaces the cache triple and cached config; on failure the
cached config is invalidated.  The `Bool` records that the file was
read. -/
def firefoxReparse (env : FirefoxEnv) (name path : String) :
    FirefoxState × DetectResult × Bool :=
  match ParsePrefsFile env.contents with
  | .found cfg =>
      ({ cached_prefs_name_ := name, cached_prefs_file_path_ := path,
         cached_prefs_last_modified_ := env.lastModified,
         cached_config_ := some cfg }, .found cfg, true)
  | r =>
      ({ cached_prefs_name_ := name, cached_prefs_file_path_ := path,
         cached_prefs_last_modified_ := env.lastModified,
         cached_config_ := none }, r, true)

/-- Modelled from the spec: `FirefoxProxyDetector::Detect` (body in
`detector.cc`).  Resolve the active profile `(name, path)`; if it and
the file's current modification time all equal the cached triple, return
the cached `ProxyConfig` unchanged without reading the file; any
mismatch invalidates the cache and forces a re-parse.  The `Bool`
result is `true` exactly when the file was read. -/
def FirefoxProxyDetector.Detect (st : FirefoxState) (env : FirefoxEnv) :
    FirefoxState × DetectResult × Bool :=
  match env.profile with
  | none => (st, .notFound, false)
  | some (name, path) =>
      match st.cached_config_ with
      | some cfg =>
          if name = st.cached_prefs_name_ ∧ path = st.cached_prefs_file_path_ ∧
              env.lastModified = st.cached_prefs_last_modified_ then
            (st, .found cfg, false)
          else firefoxReparse env name path
      | none => firefoxReparse env name path

/-- Modelled from the spec: the override record a
`RegistryOverrideProxyDetector` may find at its fixed registry path — an
explicit proxy string, an auto-config URL, or an auto-detect flag. -/
structure RegistryOverride where
  namedProxy : Option String := none
  autoConfigUrl : Option String := none
  autoDetectFlag : Bool := false
deriving Repr, DecidableEq

/-- Modelled from the spec: `RegistryOverrideProxyDetector::Detect` (body
in `detector.cc`).  A missing key or a key with no recognized override
fields is "not found"; a complete override is returned verbatim. -/
def RegistryOverrideProxyDetector.Detect (o : Option RegistryOverride) : DetectResult :=
  match o with
  | none => .notFound
  | some ov =>
      if ov.autoDetectFlag then .found { auto_detect := true }
      else
        match ov.autoConfigUrl with
        | some url => .found { auto_config_url := some url }
        | none =>
            match ov.namedProxy with
            | some p => .found { proxy_for_http := some p, proxy_for_https := some p }
            | none => .notFound

/-- From the header: `UpdateDevProxyDetector::Detect` delegates to its
member `RegistryOverrideProxyDetector` bound to the UpdateDev registry
path. -/
def UpdateDevProxyDetector.Detect (o : Option RegistryOverride) : DetectResult :=
  RegistryOverrideProxyDetector.Detect o

/-- Modelled from the spec: `DefaultProxyDetector::Detect` (body in
`detector.cc`) returns the OS winhttp proxy settings as-is, with no
reinterpretation; absence is "not found". -/
def DefaultProxyDetector.Detect (os : Option ProxyConfig) : DetectResult :=
  match os with
  | none => .notFound
  | some cfg => .found cfg

/-- Modelled from the spec: the sub-mode currently active in the OS
browser-integration (wininet) proxy store. -/
inductive IEMode where
  | direct
  | wpad
  | pac (url : String)
  | named (proxy : String)
deriving Repr, DecidableEq

/-- Modelled from the spec: what an IE-family `Detect` call observes —
whether the caller runs as or impersonates an interactively logged-on
user, and the store's active sub-mode. -/
structure IEEnv where
  hasUserContext : Bool
  mode : IEMode
deriving Repr, DecidableEq

/-- Modelled from the spec: `internal::IEProxyDetector::Detect` (body in
`detector.cc`): fails fast with the distinguished "no user context"
condition when the user-context precondition is unmet; otherwise returns
the store's settings. -/
def internal.IEProxyDetector.Detect (env : IEEnv) : DetectResult :=
  if !env.hasUserContext then .noUserContext
  else
    match env.mode with
    | .direct => .notFound
    | .wpad => .found { auto_detect := true }
    | .pac url => .found { auto_config_url := some url }
    | .named p => .found { proxy_for_http := some p, proxy_for_https := some p }

/-- Modelled from the spec: `IEWPADProxyDetector::Detect` (body in
`detector.cc`) queries only the automatic-discovery sub-mode and returns
"not found" when any other sub-mode is active. -/
def IEWPADProxyDetector.Detect (env : IEEnv) : DetectResult :=
  if !env.hasUserContext then .noUserContext
  else
    match env.mode with
    | .wpad => .found { auto_detect := true }
    | _ => .notFound

/-- Modelled from the spec: `IEPACProxyDetector::Detect` (body in
`detector.cc`) queries only the PAC-script sub-mode and returns "not
found" when any other sub-mode is active. -/
def IEPACProxyDetector.Detect (env : IEEnv) : DetectResult :=
  if !env.hasUserContext then .noUserContext
  else
    match env.mode with
    | .pac url => .found { auto_config_url := some url }
    | _ => .notFound

/-- Modelled from the spec: `IENamedProxyDetector::Detect` (body in
`detector.cc`) queries only the statically-named-proxy sub-mode and
returns "not found" when any other sub-mode is active. -/
def IENamedProxyDetector.Detect (env : IEEnv) : DetectResult :=
  if !env.hasUserContext then .noUserContext
  else
    match env.mode with
    | .named p => .found { proxy_for_http := some p, proxy_for_https := some p }
    | _ => .notFound

/-- A detector as the orchestrator sees it: internal state of type `σ`
(with its initial value), a `Detect` step over a backing configuration of
type `ε` that may update the state, and the `source()` diagnostic tag as
a function of the state. -/
structure Detector (σ ε : Type) where
  init : σ
  detect : σ → ε → σ × DetectResult
  src : σ → String

/-- From the header: `RegistryOverrideProxyDetector` has no mutable
members (only the fixed construction-time `reg_path_`); its tag is
`"RegistryOverride"`. -/
def registryOverrideDetector : Detector Unit (Option RegistryOverride) :=
  { init := ()
    detect := fun _ o => ((), RegistryOverrideProxyDetector.Detect o)
    src := fun _ => "RegistryOverride" }

/-- From the header: `UpdateDevProxyDetector` has no mutable members
beyond its fixed registry detector; its tag is `"UpdateDev"`. -/
def updateDevDetector : Detector Unit (Option RegistryOverride) :=
  { init := ()
    detect := fun _ o => ((), UpdateDevProxyDetector.Detect o)
    src := fun _ => "UpdateDev" }

/-- From the header: `GroupPolicyProxyDetector` has no mutable members;
its tag is `"GroupPolicy"`. -/
def groupPolicyDetector : Detector Unit PolicyAccessors :=
  { init := ()
    detect := fun _ a => ((), GroupPolicyProxyDetector.Detect a)
    src := fun _ => "GroupPolicy" }

/-- From the header: `DMProxyDetector` has no mutable members; its tag is
`"DeviceManagement"`. -/
def dmDetector : Detector Unit PolicyAccessors :=
  { init := ()
    detect := fun _ a => ((), DMProxyDetector.Detect a)
    src := fun _ => "DeviceManagement" }

/-- From the header: `DefaultProxyDetector` has no mutable members; its
tag is `"winhttp"`. -/
def defaultProxyDetector : Detector Unit (Option ProxyConfig) :=
  { init := ()
    detect := fun _ os => ((), DefaultProxyDetector.Detect os)
    src := fun _ => "winhttp" }

/-- From the header: `FirefoxProxyDetector` carries the mutable cache
members; its tag is `"Firefox"`. -/
def firefoxDetector : Detector FirefoxState FirefoxEnv :=
  { init := {}
    detect := fun st env =>
      let r := FirefoxProxyDetector.Detect st env
      (r.1, r.2.1)
    src := fun _ => "Firefox" }

/-- From the header: `internal::IEProxyDetector` has no mutable members;
its tag is `"IE"`. -/
def ieProxyDetector : Detector Unit IEEnv :=
  { init := ()
    detect := fun _ env => ((), internal.IEProxyDetector.Detect env)
    src := fun _ => "IE" }

/-- From the header: `IEWPADProxyDetector` has no mutable members; its
tag is `"IEWPAD"`. -/
def ieWpadDetector : Detector Unit IEEnv :=
  { init := ()
    detect := fun _ env => ((), IEWPADProxyDetector.Detect env)
    src := fun _ => "IEWPAD" }

/-- From the header: `IEPACProxyDetector` has no mutable members; its tag
is `"IEPAC"`. -/
def iePacDetector : Detector Unit IEEnv :=
  { init := ()
    detect := fun _ env => ((), IEPACProxyDetector.Detect env)
    src := fun _ => "IEPAC" }

/-- From the header: `IENamedProxyDetector` has no mutable members; its
tag is `"IENamed"`. -/
def ieNamedDetector : Detector Unit IEEnv :=
  { init := ()
    detect := fun _ env => ((), IENamedProxyDetector.Detect env)
    src := fun _ => "IENamed" }

/-- The `source()` tags of the ten concrete detector classes, in header
order, each read off the inline body in `detector.h`. -/
def allSources : List String :=
  [registryOverrideDetector.src (), updateDevDetector.src (),
   groupPolicyDetector.src (), dmDetector.src (),
   defaultProxyDetector.src (), firefoxDetector.src {},
   ieProxyDetector.src (), ieWpadDetector.src (),
   iePacDetector.src (), ieNamedDetector.src ()]

/-- Two consecutive `Detect` calls on the same instance with the same
backing configuration return the same result, and the second call starts
from the state the first call left behind. -/
def detectTwiceAgree {σ ε : Type} (d : Detector σ ε) : Prop :=
  ∀ e : ε, d.detect (d.detect d.init e).1 e = d.detect d.init e

/-- Number of the six accumulated fields on which two accumulator states
differ; one `ParsePrefsLine` call may change at most one of them. -/
def changedFields (a b : PrefsAccum) : Nat :=
  (if a.proxy_type = b.proxy_type then 0 else 1) +
  (if a.config_url = b.config_url then 0 else 1) +
  (if a.http_host = b.http_host then 0 else 1) +
  (if a.http_port = b.http_port then 0 else 1) +
  (if a.ssl_host = b.ssl_host then 0 else 1) +
  (if a.ssl_port = b.ssl_port then 0 else 1)

/-- The accumulated field a recognized preference key selects. -/
def getPrefsField (key : String) (p : PrefsAccum) : Option String :=
  if key = "network.proxy.type" then p.proxy_type
  else if key = "network.proxy.autoconfig_url" then p.config_url
  else if key = "network.proxy.http" then p.http_host
  else if key = "network.proxy.http_port" then p.http_port
  else if key = "network.proxy.ssl" then p.ssl_host
  else if key = "network.proxy.ssl_port" then p.ssl_port
  else none

/-- Whether a raw preferences line carries one of the six recognized
keys; blank lines, comment lines and unknown keys are not recognized. -/
def lineRecognized (line : String) : Bool :=
  match prefsLineKeyValue line with
  | none => false
  | some (k, _) => prefsKeys.contains k

/-- C1: `GroupPolicyProxyDetector::Detect` returns "not found" whenever
`IsManaged()` is false, regardless of what the other accessors would
return; when managed it branches on the mode string from the closed set
{"direct", "auto_detect", "pac_script", "fixed_servers", "system"},
treats an absent or unrecognized mode as "not found", requires a
non-empty PAC URL for "pac_script", and requires a non-empty server
string parsed into per-scheme `host:port` pairs for "fixed_servers"
(the spec's example server string populating both scheme fields). -/
theorem groupPolicy_detect_spec (a : PolicyAccessors) :
    (a.isManaged = false → GroupPolicyProxyDetector.Detect a = .notFound) ∧
    (a.proxyMode = none → GroupPolicyProxyDetector.Detect a = .notFound) ∧
    (∀ m, a.proxyMode = some m → m ∉ recognizedPolicyModes →
      GroupPolicyProxyDetector.Detect a = .notFound) ∧
    (a.isManaged = true → a.proxyMode = some "pac_script" →
      ∀ url, a.proxyPacUrl = some url → url ≠ "" →
        GroupPolicyProxyDetector.Detect a = .found { auto_config_url := some url }) ∧
    (a.isManaged = true → a.proxyMode = some "pac_script" →
      (a.proxyPacUrl = none ∨ a.proxyPacUrl = some "") →
        GroupPolicyProxyDetector.Detect a = .notFound) ∧
    (a.isManaged = true → a.proxyMode = some "fixed_servers" →
      ∀ s, a.proxyServer = some s → s ≠ "" →
        GroupPolicyProxyDetector.Detect a = .found (parseFixedServers s)) ∧
    (a.isManaged = true → a.proxyMode = some "fixed_servers" →
      (a.proxyServer = none ∨ a.proxyServer = some "") →
        GroupPolicyProxyDetector.Detect a = .notFound) ∧
    parseFixedServers "http=1.2.3.4:80;https=1.2.3.4:443" =
      { proxy_for_http := some "1.2.3.4:80", proxy_for_https := some "1.2.3.4:443" } := by
  obtain ⟨mg, mode, pac, srv⟩ := a
  refine ⟨?_, ?_, ?_, ?_, ?_, ?_, ?_, ?_⟩
  · rintro rfl
    simp [GroupPolicyProxyDetector.Detect, groupPolicyDetectBody]
  · rintro rfl
    simp only [GroupPolicyProxyDetector.Detect, groupPolicyDetectBody]
    cases mg <;> rfl
  · rintro m rfl hm
    simp [recognizedPolicyModes] at hm
    obtain ⟨h1, h2, h3, h4, h5⟩ := hm
    simp [GroupPolicyProxyDetector.Detect, groupPolicyDetectBody, h1, h2, h3, h4, h5]
  · rintro rfl rfl url rfl hurl
    simp [GroupPolicyProxyDetector.Detect, groupPolicyDetectBody, hurl]
  · rintro rfl rfl h
    rcases h with rfl | rfl <;>
      simp [GroupPolicyProxyDetector.Detect, groupPolicyDetectBody]
  · rintro rfl rfl s rfl hs
    simp [GroupPolicyProxyDetector.Detect, groupPolicyDetectBody, hs]
  · rintro rfl rfl h
    rcases h with rfl | rfl <;>
      simp [GroupPolicyProxyDetector.Detect, groupPolicyDetectBody]
  · decide

/-- Witness for C1: a non-managed machine yields "not found" even though
every other accessor carries valid data. -/
theorem groupPolicy_detect_spec_witness :
    GroupPolicyProxyDetector.Detect
      { isManaged := false, proxyMode := some "fixed_servers",
        proxyPacUrl := some "http://corp/proxy.pac",
        proxyServer := some "http=1.2.3.4:80" } = .notFound :=
  (groupPolicy_detect_spec _).1 rfl

/-- C6: `DMProxyDetector` overrides only the four accessors and its
source tag, not `Detect`; for every combination of accessor results it
produces the same outcome as `GroupPolicyProxyDetector`. -/
theorem dm_detect_eq_groupPolicy :
    (∀ a : PolicyAccessors, DMProxyDetector.Detect a = GroupPolicyProxyDetector.Detect a) ∧
    dmDetector.src () ≠ groupPolicyDetector.src () :=
  ⟨fun _ => rfl, by decide⟩

/-- Witness for C6: the two policy detectors agree on a concrete managed
fixed-servers configuration. -/
theorem dm_detect_eq_groupPolicy_witness :
    DMProxyDetector.Detect
      { isManaged := true, proxyMode := some "auto_detect",
        proxyPacUrl := none, proxyServer := none } =
    GroupPolicyProxyDetector.Detect
      { isManaged := true, proxyMode := some "auto_detect",
        proxyPacUrl := none, proxyServer := none } :=
  dm_detect_eq_groupPolicy.1 _

/-- C2: a Firefox `Detect` call returns the cached `ProxyConfig`
unchanged, without reading the file, exactly when the resolved
`(name, path)` equals the cached `(cached_prefs_name_,
cached_prefs_file_path_)` and the file's current modification time
equals `cached_prefs_last_modified_`; any mismatch forces a re-parse of
the file. -/
theorem firefox_cache_spec (st : FirefoxState) (env : FirefoxEnv)
    (name path : String) (cfg : ProxyConfig)
    (hprof : env.profile = some (name, path))
    (hcfg : st.cached_config_ = some cfg) :
    ((name = st.cached_prefs_name_ ∧ path = st.cached_prefs_file_path_ ∧
        env.lastModified = st.cached_prefs_last_modified_) →
      FirefoxProxyDetector.Detect st env = (st, .found cfg, false)) ∧
    (¬(name = st.cached_prefs_name_ ∧ path = st.cached_prefs_file_path_ ∧
        env.lastModified = st.cached_prefs_last_modified_) →
      (FirefoxProxyDetector.Detect st env).2.2 = true ∧
      FirefoxProxyDetector.Detect st env = firefoxReparse env name path) := by
  constructor
  · intro hhit
    simp [FirefoxProxyDetector.Detect, hprof, hcfg, hhit]
  · intro hmiss
    constructor
    · simp [FirefoxProxyDetector.Detect, hprof, hcfg, hmiss, firefoxReparse]
      cases ParsePrefsFile env.contents <;> simp
    · simp [FirefoxProxyDetector.Detect, hprof, hcfg, hmiss]

/-- Witness for C2: with a matching cached triple the cached config is
returned unchanged and the file is not read. -/
theorem firefox_cache_spec_witness :
    FirefoxProxyDetector.Detect
      { cached_prefs_name_ := "default", cached_prefs_file_path_ := "c:/prefs.js",
        cached_prefs_last_modified_ := 7, cached_config_ := some { auto_detect := true } }
      { profile := some ("default", "c:/prefs.js"), lastModified := 7,
        contents := none } =
    ({ cached_prefs_name_ := "default", cached_prefs_file_path_ := "c:/prefs.js",
       cached_prefs_last_modified_ := 7, cached_config_ := some { auto_detect := true } },
     .found { auto_detect := true }, false) :=
  (firefox_cache_spec _ _ "default" "c:/prefs.js" _ rfl rfl).1 ⟨rfl, rfl, rfl⟩

/-- C3: the Firefox mode resolution maps the parsed proxy-type integer
as 0 = no proxy ("not found"); 1 = named proxy succeeding only when
`BuildProxyString` succeeds; 2 = auto-config URL requiring a non-empty
PAC URL; 4 = auto-detect; every other integer (including 3) is "not
found"; and `ParsePrefsFile` resolves through exactly this map. -/
theorem firefox_mode_resolution (t : Int) (p : PrefsAccum) :
    (t = PROXY_TYPE_NO_PROXY → resolveMode t p = .notFound) ∧
    (t = PROXY_TYPE_NAMED_PROXY →
      BuildProxyString (p.http_host.getD "") (p.http_port.getD "")
          (p.ssl_host.getD "") (p.ssl_port.getD "") = none →
      resolveMode t p = .notFound) ∧
    (t = PROXY_TYPE_NAMED_PROXY → ∀ fh fs,
      BuildProxyString (p.http_host.getD "") (p.http_port.getD "")
          (p.ssl_host.getD "") (p.ssl_port.getD "") = some (fh, fs) →
      resolveMode t p = .found { proxy_for_http := some fh, proxy_for_https := some fs }) ∧
    (t = PROXY_TYPE_AUTO_CONFIG_URL →
      (p.config_url = none ∨ p.config_url = some "") → resolveMode t p = .notFound) ∧
    (t = PROXY_TYPE_AUTO_CONFIG_URL → ∀ url, p.config_url = some url → url ≠ "" →
      resolveMode t p = .found { auto_config_url := some url }) ∧
    (t = PROXY_TYPE_AUTO_DETECT → resolveMode t p = .found { auto_detect := true }) ∧
    (t ≠ 0 → t ≠ 1 → t ≠ 2 → t ≠ 4 → resolveMode t p = .notFound) ∧
    resolveMode 3 p = .notFound ∧
    (∀ lines, ParsePrefsFile (some lines) =
      resolveMode (prefsProxyType (parsePrefsAccum lines)) (parsePrefsAccum lines)) := by
  refine ⟨?_, ?_, ?_, ?_, ?_, ?_, ?_, ?_, ?_⟩
  · rintro rfl
    simp [resolveMode, PROXY_TYPE_NO_PROXY]
  · rintro rfl hb
    simp [resolveMode, PROXY_TYPE_NO_PROXY, PROXY_TYPE_NAMED_PROXY, hb]
  · rintro rfl fh fs hb
    simp [resolveMode, PROXY_TYPE_NO_PROXY, PROXY_TYPE_NAMED_PROXY, hb]
  · rintro rfl h
    rcases h with h | h <;>
      simp [resolveMode, PROXY_TYPE_NO_PROXY, PROXY_TYPE_NAMED_PROXY,
        PROXY_TYPE_AUTO_CONFIG_URL, h]
  · rintro rfl url hurl hne
    simp [resolveMode, PROXY_TYPE_NO_PROXY, PROXY_TYPE_NAMED_PROXY,
      PROXY_TYPE_AUTO_CONFIG_URL, hurl, hne]
  · rintro rfl
    simp [resolveMode, PROXY_TYPE_NO_PROXY, PROXY_TYPE_NAMED_PROXY,
      PROXY_TYPE_AUTO_CONFIG_URL, PROXY_TYPE_AUTO_DETECT]
  · intro h0 h1 h2 h4
    simp [resolveMode, PROXY_TYPE_NO_PROXY, PROXY_TYPE_NAMED_PROXY,
      PROXY_TYPE_AUTO_CONFIG_URL, PROXY_TYPE_AUTO_DETECT, h0, h1, h2, h4]
  · simp [resolveMode, PROXY_TYPE_NO_PROXY, PROXY_TYPE_NAMED_PROXY,
      PROXY_TYPE_AUTO_CONFIG_URL, PROXY_TYPE_AUTO_DETECT]
  · intro lines
    rfl

/-- Witness for C3: proxy type 3 resolves to "not found" on an
accumulator whose host and port fields are all populated. -/
theorem firefox_mode_resolution_witness :
    resolveMode 3
      { proxy_type := some "3", config_url := some "http://wpad/proxy.pac",
        http_host := some "10.0.0.1", http_port := some "3128",
        ssl_host := some "10.0.0.2", ssl_port := some "3129" } = .notFound :=
  (firefox_mode_resolution 3 _).2.2.2.2.2.2.2.1

/-- C4: a preferences file is processed line by line: an unreadable file
yields "not found"; each line changes at most one of the six accumulated
fields; blank lines, comment lines and unknown keys are no-ops;
unrecognized lines never abort parsing of the remaining lines; and a
recognized key's new value overwrites whatever the accumulator held, so
the last occurrence of a key wins. -/
theorem firefox_prefs_parsing_spec :
    ParsePrefsFile none = .notFound ∧
    (∀ acc line, changedFields acc (ParsePrefsLine acc line) ≤ 1) ∧
    (∀ acc line, lineRecognized line = false → ParsePrefsLine acc line = acc) ∧
    (∀ pre post line, lineRecognized line = false →
      parsePrefsAccum (pre ++ line :: post) = parsePrefsAccum (pre ++ post)) ∧
    (∀ acc line k v, prefsLineKeyValue line = some (k, v) → k ∈ prefsKeys →
      getPrefsField k (ParsePrefsLine acc line) = some v) := by
  have hnoop : ∀ line, lineRecognized line = false →
      ∀ acc, ParsePrefsLine acc line = acc := by
    intro line hline acc
    unfold ParsePrefsLine
    rcases h : prefsLineKeyValue line with _ | ⟨k, v⟩
    · rfl
    · rw [lineRecognized, h] at hline
      simp [prefsKeys] at hline
      obtain ⟨h1, h2, h3, h4, h5, h6⟩ := hline
      simp [h1, h2, h3, h4, h5, h6]
  refine ⟨rfl, ?_, ?_, ?_, ?_⟩
  · intro acc line
    unfold ParsePrefsLine
    rcases h : prefsLineKeyValue line with _ | ⟨k, v⟩
    · simp [changedFields]
    · dsimp only
      split_ifs <;> simp [changedFields] <;> split_ifs <;> simp
  · intro acc line h
    exact hnoop line h acc
  · intro pre post line h
    simp [parsePrefsAccum, List.foldl_append, hnoop line h]
  · intro acc line k v hkv hk
    simp [prefsKeys] at hk
    rcases hk with rfl | rfl | rfl | rfl | rfl | rfl <;>
      simp [ParsePrefsLine, hkv, getPrefsField]

/-- Witness for C4: a commented-out setting line and an unknown key are
no-ops, and dropping the comment line from a file leaves the
accumulated fields unchanged. -/
theorem firefox_prefs_parsing_spec_witness :
    parsePrefsAccum ["network.proxy.type: 4;", "// network.proxy.http: \"x\";",
        "browser.startup.page: 1;"] =
      parsePrefsAccum ["network.proxy.type: 4;", "browser.startup.page: 1;"] :=
  firefox_prefs_parsing_spec.2.2.2.1 ["network.proxy.type: 4;"]
    ["browser.startup.page: 1;"] "// network.proxy.http: \"x\";" (by decide)

/-- C5: `BuildProxyString` combines the HTTP and SSL host/port fields
into per-scheme `host:port` strings, reusing the HTTP values for the SSL
scheme whenever the SSL fields are absent, and fails only when the HTTP
host/port pair itself is incomplete; the spec's HTTP-only preferences
file yields the same `10.0.0.1:3128` string for both schemes. -/
theorem firefox_build_proxy_spec (hh hp sh sp : String) :
    (BuildProxyString hh hp sh sp = none ↔ (hh = "" ∨ hp = "")) ∧
    (hh ≠ "" → hp ≠ "" → (sh = "" ∨ sp = "") →
      BuildProxyString hh hp sh sp = some (hh ++ ":" ++ hp, hh ++ ":" ++ hp)) ∧
    (hh ≠ "" → hp ≠ "" → sh ≠ "" → sp ≠ "" →
      BuildProxyString hh hp sh sp = some (hh ++ ":" ++ hp, sh ++ ":" ++ sp)) ∧
    ParsePrefsFile (some ["network.proxy.type: 1;",
        "network.proxy.http: \"10.0.0.1\";", "network.proxy.http_port: 3128;"]) =
      .found { proxy_for_http := some "10.0.0.1:3128",
               proxy_for_https := some "10.0.0.1:3128" } := by
  refine ⟨?_, ?_, ?_, by decide⟩
  · constructor
    · intro h
      by_contra hc
      push_neg at hc
      simp [BuildProxyString, hc.1, hc.2] at h
    · intro h
      rcases h with h | h <;> simp [BuildProxyString, h]
  · intro h1 h2 h3
    rcases h3 with h3 | h3 <;> simp [BuildProxyString, h1, h2, h3]
  · intro h1 h2 h3 h4
    simp [BuildProxyString, h1, h2, h3, h4]

/-- Witness for C5: absent SSL fields fall back to the HTTP host/port
pair. -/
theorem firefox_build_proxy_spec_witness :
    BuildProxyString "10.0.0.1" "3128" "" "" =
      some ("10.0.0.1:3128", "10.0.0.1:3128") :=
  (firefox_build_proxy_spec "10.0.0.1" "3128" "" "").2.1
    (by decide) (by decide) (Or.inl rfl)

/-- C7: each IE browser-integration specialization returns a
configuration exactly when its own sub-mode is the active one, returns
"not found" when any other sub-mode is active, and all of them
(including the internal base) fail fast with the distinguished
"no user context" condition, distinct from "not found", when the caller
lacks an interactive-user context. -/
theorem ie_family_detect_spec (env : IEEnv) :
    (env.hasUserContext = false →
      IEWPADProxyDetector.Detect env = .noUserContext ∧
      IEPACProxyDetector.Detect env = .noUserContext ∧
      IENamedProxyDetector.Detect env = .noUserContext ∧
      internal.IEProxyDetector.Detect env = .noUserContext) ∧
    DetectResult.noUserContext ≠ DetectResult.notFound ∧
    (env.hasUserContext = true →
      ((∃ cfg, IEWPADProxyDetector.Detect env = .found cfg) ↔ env.mode = .wpad) ∧
      (env.mode ≠ .wpad → IEWPADProxyDetector.Detect env = .notFound) ∧
      ((∃ cfg, IEPACProxyDetector.Detect env = .found cfg) ↔ ∃ url, env.mode = .pac url) ∧
      ((¬ ∃ url, env.mode = .pac url) → IEPACProxyDetector.Detect env = .notFound) ∧
      ((∃ cfg, IENamedProxyDetector.Detect env = .found cfg) ↔ ∃ p, env.mode = .named p) ∧
      ((¬ ∃ p, env.mode = .named p) → IENamedProxyDetector.Detect env = .notFound)) := by
  obtain ⟨ctx, mode⟩ := env
  refine ⟨?_, by simp, ?_⟩
  · rintro rfl
    cases mode <;>
      simp [IEWPADProxyDetector.Detect, IEPACProxyDetector.Detect,
        IENamedProxyDetector.Detect, internal.IEProxyDetector.Detect]
  · rintro rfl
    cases mode <;>
      simp [IEWPADProxyDetector.Detect, IEPACProxyDetector.Detect,
        IENamedProxyDetector.Detect, internal.IEProxyDetector.Detect]

/-- Witness for C7: with a user context and an active PAC sub-mode, the
WPAD specialization reports plain "not found". -/
theorem ie_family_detect_spec_witness :
    IEWPADProxyDetector.Detect
      { hasUserContext := true, mode := .pac "http://wpad/proxy.pac" } = .notFound :=
  ((ie_family_detect_spec _).2.2 rfl).2.1 (by simp)

/-- C8: every detector other than `FirefoxProxyDetector` is stateless:
with a fixed backing configuration, two consecutive `Detect` calls on
the same instance return equal results and retain no data between the
calls. -/
theorem stateless_detect_idempotent :
    detectTwiceAgree registryOverrideDetector ∧
    detectTwiceAgree updateDevDetector ∧
    detectTwiceAgree groupPolicyDetector ∧
    detectTwiceAgree dmDetector ∧
    detectTwiceAgree defaultProxyDetector ∧
    detectTwiceAgree ieProxyDetector ∧
    detectTwiceAgree ieWpadDetector ∧
    detectTwiceAgree iePacDetector ∧
    detectTwiceAgree ieNamedDetector :=
  ⟨fun _ => rfl, fun _ => rfl, fun _ => rfl, fun _ => rfl, fun _ => rfl,
   fun _ => rfl, fun _ => rfl, fun _ => rfl, fun _ => rfl⟩

/-- Witness for C8: two consecutive registry-override detections of a
concrete override agree. -/
theorem stateless_detect_idempotent_witness :
    registryOverrideDetector.detect
        (registryOverrideDetector.detect registryOverrideDetector.init
          (some { namedProxy := some "proxy.example.com:8080" })).1
        (some { namedProxy := some "proxy.example.com:8080" }) =
      registryOverrideDetector.detect registryOverrideDetector.init
        (some { namedProxy := some "proxy.example.com:8080" }) :=
  stateless_detect_idempotent.1 _

/-- C9: every detector's `source()` tag is a non-empty string, and the
tag never changes over the instance's lifetime: it is unaffected by a
`Detect` call on the stateful Firefox detector and independent of the
(unit) state of every stateless detector. -/
theorem source_tags_nonempty_stable :
    allSources.all (fun s => s != "") = true ∧
    (∀ (st : FirefoxState) (env : FirefoxEnv),
      firefoxDetector.src (firefoxDetector.detect st env).1 = firefoxDetector.src st) ∧
    (∀ u v : Unit, registryOverrideDetector.src u = registryOverrideDetector.src v) ∧
    (∀ u v : Unit, updateDevDetector.src u = updateDevDetector.src v) ∧
    (∀ u v : Unit, groupPolicyDetector.src u = groupPolicyDetector.src v) ∧
    (∀ u v : Unit, dmDetector.src u = dmDetector.src v) ∧
    (∀ u v : Unit, defaultProxyDetector.src u = defaultProxyDetector.src v) ∧
    (∀ u v : Unit, ieProxyDetector.src u = ieProxyDetector.src v) ∧
    (∀ u v : Unit, ieWpadDetector.src u = ieWpadDetector.src v) ∧
    (∀ u v : Unit, iePacDetector.src u = iePacDetector.src v) ∧
    (∀ u v : Unit, ieNamedDetector.src u = ieNamedDetector.src v) :=
  ⟨by decide, fun _ _ => rfl, fun _ _ => rfl, fun _ _ => rfl, fun _ _ => rfl,
   fun _ _ => rfl, fun _ _ => rfl, fun _ _ => rfl, fun _ _ => rfl, fun _ _ => rfl,
   fun _ _ => rfl⟩

/-- Witness for C9: the Firefox tag is unchanged by a concrete `Detect`
call that re-parses the file. -/
theorem source_tags_nonempty_stable_witness :
    firefoxDetector.src
        (firefoxDetector.detect {}
          { profile := some ("default", "c:/prefs.js"), lastModified := 3,
            contents := some ["network.proxy.type: 4;"] }).1 =
      firefoxDetector.src {} :=
  source_tags_nonempty_stable.2.1 {} _

/-- C10: the ten concrete detector classes carry pairwise-distinct
`source()` tags, in header order `"RegistryOverride"`, `"UpdateDev"`,
`"GroupPolicy"`, `"DeviceManagement"`, `"winhttp"`, `"Firefox"`, `"IE"`,
`"IEWPAD"`, `"IEPAC"`, `"IENamed"`; the internal IE base class's own tag
`"IE"` differs from its three public specializations, so a tag uniquely
identifies the producing detector. -/
theorem source_tags_distinct :
    allSources = ["RegistryOverride", "UpdateDev", "GroupPolicy", "DeviceManagement",
      "winhttp", "Firefox", "IE", "IEWPAD", "IEPAC", "IENamed"] ∧
    allSources.Nodup :=
  ⟨rfl, by decide⟩

end Omaha
